import Mathlib

/-!
# SplashClub client — shallow embedding

A shallow embedding of the SplashClub web client (TypeScript/React) together
with theorems about its validation, messaging and reconnection logic.

JavaScript strings are modelled as Lean `String`s; JavaScript truthiness of an
optional string (`undefined`/`""` are falsy) is modelled by `truthy`;
`String.prototype.trim` is modelled by `jsTrim`; the anonymous regular
expressions of the source are modelled by explicit character predicates.
Each namespace below corresponds to one source module.
-/

namespace SplashClub

/-- The WhiteSpace/LineTerminator set stripped by JavaScript
`String.prototype.trim` (ECMA-262 `TrimString`). -/
def isJsSpace (c : Char) : Bool :=
  c == ' ' || c == '\t' || c == '\n' || c == '\r' ||
  c == '\x0b' || c == '\x0c' || c == ' ' || c == '﻿' ||
  c == ' ' || (' ' ≤ c && c ≤ ' ') ||
  c == ' ' || c == ' ' || c == ' ' ||
  c == ' ' || c == '　'

/-- `String.prototype.trim` on the underlying character list: drop leading
and trailing JavaScript whitespace. -/
def jsTrimList (l : List Char) : List Char :=
  ((l.dropWhile isJsSpace).reverse.dropWhile isJsSpace).reverse

/-- Model of JavaScript `s.trim()`. -/
def jsTrim (s : String) : String :=
  ⟨jsTrimList s.toList⟩

/-- JavaScript truthiness of a `string | undefined` value: present and
non-empty. -/
def truthy (s : Option String) : Bool :=
  match s with
  | some v => !v.toList.isEmpty
  | none => false

/-- The character class `[a-zA-Z]` of the room-code regular expression. -/
def isAsciiAlpha (c : Char) : Bool :=
  ('a' ≤ c && c ≤ 'z') || ('A' ≤ c && c ≤ 'Z')

/-- Model of `/^[a-zA-Z]+$/.test(s)`: non-empty and every character an ASCII
letter. -/
def alphaRegexTest (s : String) : Bool :=
  !s.toList.isEmpty && s.toList.all isAsciiAlpha

/- ## Client→server messages (generated/sockets_types.ts) -/

/-- `JoinRoomClientMessage` payload (the `type` tag and optional `request_id`
are fixed by the envelope). -/
structure JoinRoomClientMessage where
  user : String
  room : String
deriving DecidableEq, Repr

/-- `CreateRoomClientMessage` payload. -/
structure CreateRoomClientMessage where
  user : String
deriving DecidableEq, Repr

/-- `StartRoomClientMessage` payload. -/
structure StartRoomClientMessage where
  room : String
deriving DecidableEq, Repr

/-- `SubmitAnswerClientMessage` payload. -/
structure SubmitAnswerClientMessage where
  room : String
  user : String
  answer : String
deriving DecidableEq, Repr

/-- `SubmitVoteClientMessage` payload. -/
structure SubmitVoteClientMessage where
  room : String
  user : String
  voted_for_answer_id : String
deriving DecidableEq, Repr

/- ## Login (containers/Login.tsx, current variant) -/

namespace Login

/-- `validateRoomCode(code)`: `code.length === 4 && /^[a-zA-Z]+$/.test(code)`. -/
def validateRoomCode (code : String) : Bool :=
  code.length == 4 && alphaRegexTest code

/-- `validateUsername(name)`: `name.trim().length > 0`. -/
def validateUsername (name : String) : Bool :=
  decide (0 < (jsTrim name).length)

/-- `canJoin()`: both the room code and the username validate. -/
def canJoin (roomInput userInput : String) : Bool :=
  validateRoomCode roomInput && validateUsername userInput

/-- `canCreate()`: the username validates. -/
def canCreate (userInput : String) : Bool :=
  validateUsername userInput

/-- `handleJoin`: guard on `canJoin`, then send
`{type: "join_room", user: userInput.trim(), room: roomInput}`.
Returns the message sent, if any. -/
def handleJoin (roomInput userInput : String) : Option JoinRoomClientMessage :=
  if canJoin roomInput userInput then
    some { user := jsTrim userInput, room := roomInput }
  else
    none

/-- `handleCreate`: guard on `canCreate`, then send
`{type: "create_room", user: userInput.trim()}`. -/
def handleCreate (userInput : String) : Option CreateRoomClientMessage :=
  if canCreate userInput then
    some { user := jsTrim userInput }
  else
    none

end Login

/- ## Waiting room (containers/Waiting.tsx, current variant) -/

namespace Waiting

/-- `validateStart()`: `users.length >= 3`. -/
def validateStart (users : List String) : Bool :=
  decide (3 ≤ users.length)

/-- The Start Game button's `disabled={!validateStart()}` prop. -/
def startButtonDisabled (users : List String) : Bool :=
  !validateStart users

end Waiting

/- ## WebSocket reconnection hook (hooks/useGameWebSocket.ts) -/

namespace Hook

/-- `react-use-websocket` connection states. -/
inductive ReadyState where
  | connecting
  | opened
  | closing
  | closed
  | uninstantiated
deriving DecidableEq, Repr

/-- `shouldReconnect(closeEvent)`: reconnect only when a room id and a stored
user id are both present (truthy) and fewer than 3 attempts are counted. -/
def shouldReconnect (roomId storedUserId : Option String)
    (reconnectAttempts : Nat) : Bool :=
  if truthy roomId && truthy storedUserId then
    decide (reconnectAttempts < 3)
  else
    false

/-- The `onClose` handler's effect on the attempt counter: increment while a
room id and stored user id are present and fewer than 3 attempts counted. -/
def onCloseStep (roomId storedUserId : Option String) (reconnectAttempts : Nat) : Nat :=
  if truthy roomId && truthy storedUserId && decide (reconnectAttempts < 3) then
    reconnectAttempts + 1
  else
    reconnectAttempts

/-- The attempt counter after a sequence of `n` close events. -/
def closeEventsRun (roomId storedUserId : Option String) :
    Nat → Nat → Nat
  | 0, a => a
  | n + 1, a => closeEventsRun roomId storedUserId n (onCloseStep roomId storedUserId a)

end Hook

/- ## Central message handling and routing (components/GameApp.tsx, App.tsx) -/

/-- A `setCurPage` request: the target page plus optional user/room data. -/
structure PageReq where
  page : String
  user : Option String := none
  room : Option String := none
deriving DecidableEq, Repr

namespace GameApp

/-- The server→client events dispatched on by the central `handleMessage`
switch; payload fields are optional, mirroring `WsMessageData`. -/
inductive ServerEvent where
  | joinRoomOk (user room : Option String)
  | rejoinRoomOk (user room : Option String)
  | errorEvt (message : String)
  | roomNotFound
  | otherEvt (tag : String)
deriving DecidableEq, Repr

/-- Observable effects of one `handleMessage` dispatch: the
`setPageWithRouting` call made, whether the persisted user id was cleared
directly (`clearUserId(); setStoredUserId(null)`), and whether the client
navigated to the start route `/`. -/
structure HandlerOutcome where
  setPage : Option PageReq
  clearsStoredUserId : Bool
  navigatesHome : Bool
deriving DecidableEq, Repr

/-- `handleMessage(data)`: `join_room_ok`/`rejoin_room_ok` with user and room
enter the waiting page; `error` and `room_not_found` both clear the stored
user id and navigate home; other types fall through the switch. -/
def handleMessage : ServerEvent → HandlerOutcome
  | .joinRoomOk user room =>
    if truthy user && truthy room then
      ⟨some ⟨"waiting", user, room⟩, false, false⟩
    else
      ⟨none, false, false⟩
  | .rejoinRoomOk user room =>
    if truthy user && truthy room then
      ⟨some ⟨"waiting", user, room⟩, false, false⟩
    else
      ⟨none, false, false⟩
  | .errorEvt _ => ⟨none, true, true⟩
  | .roomNotFound => ⟨none, true, true⟩
  | .otherEvt _ => ⟨none, false, false⟩

/-- The max-reconnection-attempts effect (App.tsx): when the socket is CLOSED,
a room id is present and 3 attempts are reached, give up. -/
def maxAttemptsRedirect (readyState : Hook.ReadyState) (roomId : Option String)
    (reconnectAttempts : Nat) : Bool :=
  (readyState == .closed) && truthy roomId && decide (3 ≤ reconnectAttempts)

/-- The give-up effect's actions: clear the stored user id and navigate to
the start page when `maxAttemptsRedirect` fires. -/
def maxAttemptsEffect (readyState : Hook.ReadyState) (roomId : Option String)
    (reconnectAttempts : Nat) : HandlerOutcome :=
  if maxAttemptsRedirect readyState roomId reconnectAttempts then
    ⟨none, true, true⟩
  else
    ⟨none, false, false⟩

/-- The pages that count as being inside a room. -/
def inRoomPage (page : String) : Bool :=
  page == "waiting" || page == "prompt" || page == "vote" ||
  page == "results" || page == "game"

/-- Client-side state touched by `setPageWithRouting`: the persisted user id
(sessionStorage mirror) and the current route. -/
structure RoutingState where
  storedUserId : Option String
  route : String
deriving DecidableEq, Repr

/-- `setPageWithRouting(newPage)`: save the user id when entering an in-room
page with a (truthy) user; navigate to `/room/{room}` when entering an
in-room page for a new room; clear the user id and navigate to `/` when
entering the login page. (`setCurPage(newPage)` itself is unconditional, so
after the call the client is on `newPage.page`.) -/
def setPageWithRouting (roomId : Option String) (st : RoutingState)
    (newPage : PageReq) : RoutingState :=
  let st₁ :=
    if truthy newPage.user && inRoomPage newPage.page then
      { st with storedUserId := newPage.user }
    else
      st
  if inRoomPage newPage.page then
    match newPage.room with
    | some r =>
      if !r.toList.isEmpty && decide (some r ≠ roomId) then
        { st₁ with route := "/room/" ++ r }
      else
        st₁
    | none => st₁
  else if newPage.page == "login" then
    { storedUserId := none, route := "/" }
  else
    st₁

end GameApp

/- ## Prompt page (containers/Prompt.tsx) -/

namespace Prompt

/-- The component state of the Prompt page: the answer input, the `waiting`
flag (submission in flight) and the `answered` flag. -/
structure PromptState where
  answer : String
  waiting : Bool
  answered : Bool
deriving DecidableEq, Repr

/-- Initial state on mount:
`answered = props.already_answered || false`, empty input, not waiting. -/
def initState (already_answered : Option Bool) : PromptState :=
  { answer := "", waiting := false, answered := already_answered.getD false }

/-- The `ask_prompt` branch of the message handler:
`if (data.already_answered) setanswered(true)`. -/
def onAskPrompt (already_answered : Option Bool) (s : PromptState) : PromptState :=
  if already_answered.getD false then { s with answered := true } else s

/-- The answer form is rendered iff the page is not in the answered/waiting
view (`if (answered) return <waiting view>`). -/
def answerFormShown (s : PromptState) : Bool :=
  !s.answered

/-- `validateAnswer()`: `answer.trim().length > 0 && !waiting`. -/
def validateAnswer (s : PromptState) : Bool :=
  decide (0 < (jsTrim s.answer).length) && !s.waiting

/-- `handleSubmit`: guard on `validateAnswer`, then send
`{type: "submit_answer", room, user, answer: answer.trim()}` and set
`waiting` and `answered`. -/
def handleSubmit (room user : String) (s : PromptState) :
    PromptState × Option SubmitAnswerClientMessage :=
  if !validateAnswer s then
    (s, none)
  else
    ({ s with waiting := true, answered := true },
      some { room := room, user := user, answer := jsTrim s.answer })

/-- A submit reaches `handleSubmit` only through the rendered form: when the
answered view is shown instead, no submission is possible. -/
def pageSubmit (room user : String) (s : PromptState) :
    PromptState × Option SubmitAnswerClientMessage :=
  if answerFormShown s then handleSubmit room user s else (s, none)

end Prompt

/- ## Vote page (containers/Vote.tsx, current variant) -/

namespace Vote

/-- The component state of the Vote page relevant to vote submission. -/
structure VoteState where
  selected : String
  waiting : Bool
deriving DecidableEq, Repr

/-- Initial state on mount:
`selected = already_voted ? "true" : ""`, `waiting = already_voted`. -/
def initState (already_voted : Bool) : VoteState :=
  { selected := if already_voted then "true" else "", waiting := already_voted }

/-- `handleVote(id)`: return without sending when `waiting || selected !== ""`;
otherwise record the selection, set `waiting` and send `submit_vote`. -/
def handleVote (room user id : String) (s : VoteState) :
    VoteState × Option SubmitVoteClientMessage :=
  if s.waiting || !(s.selected == "") then
    (s, none)
  else
    ({ selected := id, waiting := true },
      some { room := room, user := user, voted_for_answer_id := id })

/-- Run a sequence of answer-button presses, counting the `submit_vote`
messages sent. -/
def runPresses (room user : String) : List String → VoteState → VoteState × Nat
  | [], s => (s, 0)
  | id :: rest, s =>
    let step := handleVote room user id s
    let tail := runPresses room user rest step.1
    (tail.1, (if step.2.isSome then 1 else 0) + tail.2)

end Vote

/- ## Generated protocol declarations (generated/sockets_types.ts) -/

namespace Protocol

/-- One payload field of a message interface declaration: its name and
whether it is optional (`?`). -/
structure FieldDecl where
  name : String
  optional : Bool
deriving DecidableEq, Repr

/-- One server→client message interface declaration: its `type` tag and its
payload fields (beyond the common optional `response_to_request_id` and the
`type` discriminator, which every declaration carries). -/
structure ServerMessageDecl where
  tag : String
  payload : List FieldDecl
deriving DecidableEq, Repr

/-- The server→client message interfaces declared in
`generated/sockets_types.ts`, in file order: `AskPromptServerMessage`,
`AskVoteServerMessage`, `ErrorServerMessage`, `GameDoneServerMessage`,
`JoinRoomSuccessServerMessage`, `ShowResultsServerMessage`,
`UserUpdateServerMessage`. -/
def generatedServerMessageDecls : List ServerMessageDecl :=
  [ ⟨"ask_prompt", [⟨"prompt", false⟩]⟩,
    ⟨"ask_vote", [⟨"prompt", false⟩, ⟨"answers", false⟩]⟩,
    ⟨"error", [⟨"message", false⟩]⟩,
    ⟨"game_done", [⟨"message", true⟩]⟩,
    ⟨"join_room_ok", [⟨"room", false⟩, ⟨"user", false⟩]⟩,
    ⟨"show_results", [⟨"results", false⟩]⟩,
    ⟨"user_update", [⟨"users", false⟩]⟩ ]

/-- Modelled from the spec: the server→client envelope list of §6 —
`join_room_ok{user, room}`, `rejoin_room_ok{user, room}`, `room_not_found{}`,
`error{message}`, `user_update{users}`, `ask_prompt{prompt,
already_answered?}`, `ask_vote{prompt, answers}`, `show_results{results}`,
`game_done{message?}` — each also carrying the optional
`response_to_request_id`. -/
def specServerEnvelopes : List ServerMessageDecl :=
  [ ⟨"join_room_ok", [⟨"user", false⟩, ⟨"room", false⟩]⟩,
    ⟨"rejoin_room_ok", [⟨"user", false⟩, ⟨"room", false⟩]⟩,
    ⟨"room_not_found", []⟩,
    ⟨"error", [⟨"message", false⟩]⟩,
    ⟨"user_update", [⟨"users", false⟩]⟩,
    ⟨"ask_prompt", [⟨"prompt", false⟩, ⟨"already_answered", true⟩]⟩,
    ⟨"ask_vote", [⟨"prompt", false⟩, ⟨"answers", false⟩]⟩,
    ⟨"show_results", [⟨"results", false⟩]⟩,
    ⟨"game_done", [⟨"message", true⟩]⟩ ]

/-- The `type` tags of a declaration list. -/
def tags (decls : List ServerMessageDecl) : List String :=
  decls.map ServerMessageDecl.tag

/-- The payload field names a declaration list assigns to a tag. -/
def payloadNames (decls : List ServerMessageDecl) (tag : String) : List String :=
  match decls.find? (fun d => d.tag == tag) with
  | some d => d.payload.map FieldDecl.name
  | none => []

end Protocol

end SplashClub

namespace SplashClub

/- ## Supporting lemmas on `jsTrim` -/

theorem head?_dropWhile_not (p : Char → Bool) :
    ∀ (l : List Char) (c : Char), (l.dropWhile p).head? = some c → p c = false := by
  intro l
  induction l with
  | nil => intro c h; simp [List.dropWhile] at h
  | cons a t ih =>
    intro c h
    by_cases hp : p a
    · rw [List.dropWhile_cons_of_pos hp] at h
      exact ih c h
    · rw [List.dropWhile_cons_of_neg hp] at h
      simp at h
      simpa [h] using hp

theorem jsTrimList_reverse (l : List Char) :
    (jsTrimList l).reverse = (l.dropWhile isJsSpace).reverse.dropWhile isJsSpace := by
  simp [jsTrimList]

theorem jsTrimList_last_not_space (l : List Char) (c : Char)
    (h : (jsTrimList l).reverse.head? = some c) : isJsSpace c = false := by
  rw [jsTrimList_reverse] at h
  exact head?_dropWhile_not isJsSpace _ c h

theorem getLast?_of_suffix {l₁ l₂ : List Char} (h : l₁ <:+ l₂) (hne : l₁ ≠ []) :
    l₁.getLast? = l₂.getLast? := by
  obtain ⟨t, rfl⟩ := h
  rw [List.getLast?_append_of_ne_nil _ hne]

theorem jsTrimList_head_not_space (l : List Char) (c : Char)
    (h : (jsTrimList l).head? = some c) : isJsSpace c = false := by
  unfold jsTrimList at h
  rw [List.head?_reverse] at h
  have hne : (l.dropWhile isJsSpace).reverse.dropWhile isJsSpace ≠ [] := by
    intro hnil
    rw [hnil] at h
    simp at h
  rw [getLast?_of_suffix (List.dropWhile_suffix isJsSpace) hne] at h
  rw [List.getLast?_reverse] at h
  exact head?_dropWhile_not isJsSpace _ c h

/- ## C1 -/

/-- C1: the lobby start gate requires at least 3 players — `validateStart`
holds exactly when the roster has at least 3 entries (so it is false at 2,
true at 3), and the Start Game button is disabled exactly when fewer than 3
players are listed. -/
theorem validateStart_requires_three_players :
    (∀ users : List String, Waiting.validateStart users = true ↔ 3 ≤ users.length)
    ∧ Waiting.validateStart ["alice", "bob"] = false
    ∧ Waiting.validateStart ["alice", "bob", "carol"] = true
    ∧ (∀ users : List String,
        Waiting.startButtonDisabled users = true ↔ users.length < 3) := by
  refine ⟨fun users => ?_, by decide, by decide, fun users => ?_⟩
  · simp [Waiting.validateStart]
  · simp [Waiting.startButtonDisabled, Waiting.validateStart]

/- ## C4 -/

/-- C4: the room-code validator accepts a string iff it consists of exactly 4
ASCII letters (the language of `^[A-Za-z]{4}$`), and a `join_room` message is
only sent when the entered room code satisfies this predicate. -/
theorem validateRoomCode_iff_four_ascii_letters :
    (∀ s : String, Login.validateRoomCode s = true ↔
      (s.toList.length = 4 ∧ ∀ c ∈ s.toList, isAsciiAlpha c = true))
    ∧ (∀ roomInput userInput : String,
        Login.handleJoin roomInput userInput ≠ none →
        Login.validateRoomCode roomInput = true) := by
  constructor
  · intro s
    simp only [Login.validateRoomCode, alphaRegexTest, Bool.and_eq_true,
      beq_iff_eq, Bool.not_eq_true', List.all_eq_true, String.length]
    constructor
    · rintro ⟨h4, _, hall⟩
      exact ⟨h4, hall⟩
    · rintro ⟨h4, hall⟩
      refine ⟨h4, ?_, hall⟩
      cases hl : s.toList with
      | nil => rw [hl] at h4; simp at h4
      | cons a t => simp
  · intro roomInput userInput h
    unfold Login.handleJoin at h
    by_cases hc : Login.canJoin roomInput userInput = true
    · exact (Bool.and_eq_true _ _ |>.mp hc).1
    · simp [hc] at h

/-- C4 witness: a concrete accepted join. -/
theorem validateRoomCode_iff_four_ascii_letters_witness :
    Login.validateRoomCode "AbCd" = true :=
  validateRoomCode_iff_four_ascii_letters.2 "AbCd" "alice" (by decide)

/- ## C5 -/

/-- C5: `join_room` and `create_room` are only permitted when the username is
non-empty after trimming, and the `user` field sent on the wire is exactly the
trimmed username; a whitespace-only username is never accepted or sent. -/
theorem username_sent_trimmed_and_nonempty :
    (∀ name : String, Login.validateUsername name = true ↔ 0 < (jsTrim name).length)
    ∧ (∀ roomInput userInput msg,
        Login.handleJoin roomInput userInput = some msg →
        0 < (jsTrim userInput).length ∧ msg.user = jsTrim userInput)
    ∧ (∀ userInput msg,
        Login.handleCreate userInput = some msg →
        0 < (jsTrim userInput).length ∧ msg.user = jsTrim userInput)
    ∧ Login.handleJoin "ABCD" "   " = none
    ∧ Login.handleCreate " " = none := by
  refine ⟨fun name => by simp [Login.validateUsername], ?_, ?_, by decide, by decide⟩
  · intro roomInput userInput msg h
    unfold Login.handleJoin at h
    by_cases hc : Login.canJoin roomInput userInput = true
    · have hu : Login.validateUsername userInput = true :=
        (Bool.and_eq_true _ _ |>.mp hc).2
      simp [Login.validateUsername] at hu
      simp [hc] at h
      exact ⟨hu, by rw [← h]⟩
    · simp [hc] at h
  · intro userInput msg h
    unfold Login.handleCreate at h
    by_cases hc : Login.canCreate userInput = true
    · have hu : Login.validateUsername userInput = true := hc
      simp [Login.validateUsername] at hu
      simp [hc] at h
      exact ⟨hu, by rw [← h]⟩
    · simp [hc] at h

/-- C5 witness: a concrete join whose username is sent trimmed. -/
theorem username_sent_trimmed_and_nonempty_witness :
    0 < (jsTrim " alice ").length ∧
      (⟨"alice", "ABCD"⟩ : JoinRoomClientMessage).user = jsTrim " alice " :=
  username_sent_trimmed_and_nonempty.2.1 "ABCD" " alice " ⟨"alice", "ABCD"⟩ (by decide)

/- ## C2 -/

/-- C2: the generated server→client declarations are the closed 7-element set
`ask_prompt, ask_vote, error, game_done, join_room_ok, show_results,
user_update`; contrary to the spec's envelope list they contain no
`rejoin_room_ok` or `room_not_found` variant, and `ask_prompt` carries no
`already_answered` field. -/
theorem generated_decls_lack_rejoin_envelopes :
    Protocol.tags Protocol.generatedServerMessageDecls =
      ["ask_prompt", "ask_vote", "error", "game_done", "join_room_ok",
        "show_results", "user_update"]
    ∧ "rejoin_room_ok" ∈ Protocol.tags Protocol.specServerEnvelopes
    ∧ "rejoin_room_ok" ∉ Protocol.tags Protocol.generatedServerMessageDecls
    ∧ "room_not_found" ∈ Protocol.tags Protocol.specServerEnvelopes
    ∧ "room_not_found" ∉ Protocol.tags Protocol.generatedServerMessageDecls
    ∧ "already_answered" ∈
        Protocol.payloadNames Protocol.specServerEnvelopes "ask_prompt"
    ∧ "already_answered" ∉
        Protocol.payloadNames Protocol.generatedServerMessageDecls "ask_prompt" := by
  refine ⟨rfl, ?_, ?_, ?_, ?_, ?_, ?_⟩ <;> decide

/- ## C3 -/

/-- C3: automatic reconnection is capped at 3 attempts — `shouldReconnect`
holds iff a room id and stored user id are present and fewer than 3 attempts
are counted (so never at 3), the attempt counter never exceeds 3 under any
sequence of close events, and once the socket is CLOSED with 3 attempts
reached the client clears the stored user id and navigates home. -/
theorem reconnect_attempts_capped_at_three :
    (∀ (roomId storedUserId : Option String) (a : Nat),
      Hook.shouldReconnect roomId storedUserId a = true ↔
        (truthy roomId = true ∧ truthy storedUserId = true ∧ a < 3))
    ∧ (∀ roomId storedUserId, Hook.shouldReconnect roomId storedUserId 3 = false)
    ∧ (∀ roomId storedUserId n, Hook.closeEventsRun roomId storedUserId n 0 ≤ 3)
    ∧ (∀ (roomId : Option String) (a : Nat),
        GameApp.maxAttemptsRedirect .closed roomId a = true ↔
          (truthy roomId = true ∧ 3 ≤ a))
    ∧ (∀ (roomId : Option String) (a : Nat),
        GameApp.maxAttemptsRedirect .closed roomId a = true →
          GameApp.maxAttemptsEffect .closed roomId a = ⟨none, true, true⟩) := by
  have hstep : ∀ (r u : Option String) (a : Nat), a ≤ 3 → Hook.onCloseStep r u a ≤ 3 := by
    intro r u a ha
    unfold Hook.onCloseStep
    split
    · next h =>
      simp only [Bool.and_eq_true, decide_eq_true_eq] at h
      omega
    · exact ha
  have hrun : ∀ (r u : Option String) (n a : Nat), a ≤ 3 →
      Hook.closeEventsRun r u n a ≤ 3 := by
    intro r u n
    induction n with
    | zero => intro a ha; exact ha
    | succ m ih => intro a ha; exact ih _ (hstep r u a ha)
  refine ⟨fun r u a => ?_, fun r u => ?_, fun r u n => hrun r u n 0 (by omega),
    fun r a => ?_, fun r a h => ?_⟩
  · unfold Hook.shouldReconnect
    split
    · next h =>
      simp only [Bool.and_eq_true] at h
      simp [h.1, h.2]
    · next h =>
      simp only [Bool.and_eq_true, not_and_or] at h
      constructor
      · intro hfalse; exact absurd hfalse (by simp)
      · rintro ⟨h1, h2, _⟩; exact absurd (Or.inl h1) (by tauto)
  · unfold Hook.shouldReconnect
    split <;> simp
  · simp [GameApp.maxAttemptsRedirect]
  · simp [GameApp.maxAttemptsEffect, h]

/-- C3 witness: at the cap with a live room id, the give-up effect clears the
stored user id and navigates home. -/
theorem reconnect_attempts_capped_at_three_witness :
    GameApp.maxAttemptsEffect .closed (some "ABCD") 3 =
      ⟨none, true, true⟩ :=
  reconnect_attempts_capped_at_three.2.2.2.2 (some "ABCD") 3 (by decide)

/- ## C6 -/

/-- C6 counterexample: a generic `error` event is not treated as a transient
failure — it ends the stored session exactly as `room_not_found` does: the
handler clears the persisted user id, navigates home, and its outcome is
identical to the `room_not_found` outcome. -/
theorem error_event_ends_stored_session :
    (GameApp.handleMessage (.errorEvt "transient failure")).clearsStoredUserId = true
    ∧ GameApp.handleMessage (.errorEvt "transient failure") =
        GameApp.handleMessage .roomNotFound := by
  exact ⟨rfl, rfl⟩

/-- C6 amended: on `room_not_found` the client clears the persisted user id
and navigates to the login route; a generic `error` event is handled
identically (also clearing the stored session), so the two are not
distinguishable in client effects. -/
theorem room_not_found_clears_session_like_error :
    GameApp.handleMessage .roomNotFound =
      ⟨none, true, true⟩
    ∧ (∀ message, GameApp.handleMessage (.errorEvt message) = ⟨none, true, true⟩) :=
  ⟨rfl, fun _ => rfl⟩

/- ## C7 -/

/-- C7: rejoin resync in the Collecting phase — an `ask_prompt` with
`already_answered = true` puts the Prompt page in the already-submitted
waiting state (form not offered, no submission possible, and the state is
absorbing), while entering with `already_answered` false or absent shows the
answer form. -/
theorem ask_prompt_already_answered_resync :
    (∀ s, Prompt.answerFormShown (Prompt.onAskPrompt (some true) s) = false)
    ∧ Prompt.answerFormShown (Prompt.initState (some true)) = false
    ∧ Prompt.answerFormShown (Prompt.initState (some false)) = true
    ∧ Prompt.answerFormShown (Prompt.initState none) = true
    ∧ (∀ (flag : Option Bool) (s : Prompt.PromptState),
        (Prompt.onAskPrompt flag { s with answered := true }).answered = true)
    ∧ (∀ (room user : String) (s : Prompt.PromptState),
        (Prompt.pageSubmit room user { s with answered := true }).2 = none) := by
  refine ⟨fun s => ?_, rfl, rfl, rfl, fun flag s => ?_, fun room user s => ?_⟩
  · simp [Prompt.onAskPrompt, Prompt.answerFormShown]
  · unfold Prompt.onAskPrompt
    split <;> rfl
  · simp [Prompt.pageSubmit, Prompt.answerFormShown]

/- ## C8 -/

/-- Once `waiting` is set, every further button press is ignored: no message
is sent and the state is unchanged. -/
theorem runPresses_waiting_absorbs (room user : String) :
    ∀ (presses : List String) (s : Vote.VoteState), s.waiting = true →
      Vote.runPresses room user presses s = (s, 0) := by
  intro presses
  induction presses with
  | nil => intro s _; rfl
  | cons id rest ih =>
    intro s hs
    have hvote : Vote.handleVote room user id s = (s, none) := by
      unfold Vote.handleVote
      simp [hs]
    simp [Vote.runPresses, hvote, ih s hs]

/-- C8: within one Voting phase at most one `submit_vote` is sent — starting
already voted, no sequence of button presses sends anything; starting fresh,
any sequence of presses sends at most one message; and after a press has
fired, the very next press sends nothing. -/
theorem at_most_one_vote_submitted :
    ∀ (room user : String) (presses : List String),
      (Vote.runPresses room user presses (Vote.initState true)).2 = 0
      ∧ (Vote.runPresses room user presses (Vote.initState false)).2 ≤ 1
      ∧ (∀ id next s,
          (Vote.handleVote room user next
            ((Vote.handleVote room user id
              { selected := s, waiting := true }).1)).2 = none) := by
  intro room user presses
  refine ⟨?_, ?_, fun id next s => ?_⟩
  · have h := runPresses_waiting_absorbs room user presses (Vote.initState true) rfl
    rw [h]
  · cases presses with
    | nil => simp [Vote.runPresses]
    | cons id rest =>
      have hvote : Vote.handleVote room user id (Vote.initState false) =
          ({ selected := id, waiting := true },
            some { room := room, user := user, voted_for_answer_id := id }) := by
        unfold Vote.handleVote Vote.initState
        simp
      have habs := runPresses_waiting_absorbs room user rest
        { selected := id, waiting := true } rfl
      simp [Vote.runPresses, hvote, habs]
  · have h1 : (Vote.handleVote room user id
        { selected := s, waiting := true }).1 =
        { selected := s, waiting := true } := by
      unfold Vote.handleVote
      simp
    rw [h1]
    unfold Vote.handleVote
    simp

/- ## C9 -/

/-- C9: `setPageWithRouting` preserves the stored-identity invariant —
entering an in-room page with a (truthy) user persists that user id, entering
the login page clears it and navigates to `/`, and after any such transition
a persisted user id exists iff the new page is an in-room page. -/
theorem stored_identity_invariant :
    ∀ (roomId : Option String) (st : GameApp.RoutingState) (newPage : PageReq),
      (GameApp.inRoomPage newPage.page = true → truthy newPage.user = true →
        (GameApp.setPageWithRouting roomId st newPage).storedUserId = newPage.user)
      ∧ (newPage.page = "login" →
          (GameApp.setPageWithRouting roomId st newPage).storedUserId = none ∧
            (GameApp.setPageWithRouting roomId st newPage).route = "/")
      ∧ ((GameApp.inRoomPage newPage.page = true ∧ truthy newPage.user = true) ∨
            newPage.page = "login" →
          ((GameApp.setPageWithRouting roomId st newPage).storedUserId ≠ none ↔
            GameApp.inRoomPage newPage.page = true)) := by
  intro roomId st newPage
  have hstored : GameApp.inRoomPage newPage.page = true →
      truthy newPage.user = true →
      (GameApp.setPageWithRouting roomId st newPage).storedUserId = newPage.user := by
    intro hin hu
    unfold GameApp.setPageWithRouting
    simp only [hu, hin, Bool.and_self, if_true, if_pos]
    cases hr : newPage.room with
    | none => rfl
    | some r =>
      dsimp only
      split <;> rfl
  have hlogin : newPage.page = "login" →
      (GameApp.setPageWithRouting roomId st newPage).storedUserId = none ∧
        (GameApp.setPageWithRouting roomId st newPage).route = "/" := by
    intro hl
    have hloginPage : GameApp.inRoomPage "login" = false := rfl
    unfold GameApp.setPageWithRouting
    rw [hl]
    simp [hloginPage]
  refine ⟨hstored, hlogin, ?_⟩
  rintro (⟨hin, hu⟩ | hl)
  · rw [hstored hin hu, hin]
    simp only [iff_true]
    cases hopt : newPage.user with
    | none => rw [hopt] at hu; simp [truthy] at hu
    | some v => simp
  · have hin : GameApp.inRoomPage newPage.page = false := by
      rw [hl]; rfl
    rw [(hlogin hl).1, hin]
    simp

/-- C9 witness: entering the waiting room as `alice` persists her id; a later
return to login clears it. -/
theorem stored_identity_invariant_witness :
    (GameApp.setPageWithRouting none ⟨none, "/"⟩
        ⟨"waiting", some "alice", some "ABCD"⟩).storedUserId = some "alice"
    ∧ (GameApp.setPageWithRouting none ⟨some "alice", "/room/ABCD"⟩
        ⟨"login", none, none⟩).storedUserId = none :=
  ⟨(stored_identity_invariant none ⟨none, "/"⟩
      ⟨"waiting", some "alice", some "ABCD"⟩).1 (by decide) (by decide),
    ((stored_identity_invariant none ⟨some "alice", "/room/ABCD"⟩
      ⟨"login", none, none⟩).2.1 rfl).1⟩

/- ## C10 -/

/-- C10: every `submit_answer` emitted by the Prompt page carries exactly the
trimmed answer, which is non-empty and has no leading or trailing
whitespace. -/
theorem submit_answer_trimmed_nonempty :
    ∀ (room user : String) (s : Prompt.PromptState) (msg : SubmitAnswerClientMessage),
      (Prompt.pageSubmit room user s).2 = some msg →
      msg = { room := room, user := user, answer := jsTrim s.answer }
      ∧ 0 < msg.answer.toList.length
      ∧ (∀ c, msg.answer.toList.head? = some c → isJsSpace c = false)
      ∧ (∀ c, msg.answer.toList.reverse.head? = some c → isJsSpace c = false) := by
  intro room user s msg h
  unfold Prompt.pageSubmit at h
  by_cases hshown : Prompt.answerFormShown s = true
  · rw [if_pos hshown] at h
    unfold Prompt.handleSubmit at h
    by_cases hv : Prompt.validateAnswer s = true
    · rw [if_neg (by simp [hv])] at h
      simp only [Option.some.injEq] at h
      have hlen : 0 < (jsTrim s.answer).length := by
        have := (Bool.and_eq_true _ _).mp hv
        simpa using this.1
      have hmsg : msg = { room := room, user := user, answer := jsTrim s.answer } :=
        h.symm
      refine ⟨hmsg, ?_, ?_, ?_⟩
      · rw [hmsg]
        simpa [jsTrim, String.length] using hlen
      · intro c hc
        rw [hmsg] at hc
        exact jsTrimList_head_not_space s.answer.toList c hc
      · intro c hc
        rw [hmsg] at hc
        exact jsTrimList_last_not_space s.answer.toList c hc
    · rw [if_pos (by simp [hv])] at h
      simp at h
  · rw [if_neg hshown] at h
    simp at h

/-- C10 witness: submitting `"  hi  "` sends exactly the trimmed non-empty
answer `"hi"`. -/
theorem submit_answer_trimmed_nonempty_witness :
    (⟨"ABCD", "alice", "hi"⟩ : SubmitAnswerClientMessage) =
      { room := "ABCD", user := "alice", answer := jsTrim "  hi  " }
    ∧ 0 < (⟨"ABCD", "alice", "hi"⟩ : SubmitAnswerClientMessage).answer.toList.length :=
  have h := submit_answer_trimmed_nonempty "ABCD" "alice"
    ⟨"  hi  ", false, false⟩ ⟨"ABCD", "alice", "hi"⟩ (by decide)
  ⟨h.1, h.2.1⟩

end SplashClub
